import Mathlib

/-!
A shallow embedding of the authentication-flow core of the moncomptepro
repository: the data model (session state, user records, single-use security
tokens) and the Express controllers of controllers/user.ts, translated to pure
Lean functions from (database, session, request payload) to
(new session, new database, outcome).  Collaborators that are not part of the
sources (the user managers, the email validator, the zod email schema) are
modelled from the specification and marked as such in their doc comments.
-/

namespace MCP

/-! ## Data model -/

/-- A user record, as described in the specification (§3 UserRecord). -/
structure User where
  id : Nat
  email : String
  passwordHash : String
  emailVerifiedAt : Option Nat := none
  givenName : String := ""
  familyName : String := ""
  phoneNumber : String := ""
  job : String := ""
  deriving Repr, DecidableEq

/-- The three kinds of single-use security token (§3 SecurityToken). -/
inductive TokenKind
  | emailVerification
  | magicLink
  | passwordReset
  deriving Repr, DecidableEq

/-- A single-use, time-limited security token (§3 SecurityToken). -/
structure SecurityToken where
  kind : TokenKind
  value : String
  subjectEmail : String
  issuedAt : Nat
  expiresAt : Nat
  consumedAt : Option Nat := none
  deriving Repr, DecidableEq

/-- The persistence collaborator: user records plus the token store. -/
structure Db where
  users : List User
  tokens : List SecurityToken
  deriving Repr, DecidableEq

/-- The browser session state (§3 SessionState): `email` is the pending
email, `user` the authenticated user; `interactionId` and `referer` are
opaque passthrough values used by the redirect controller. -/
structure Session where
  email : Option String := none
  user : Option User := none
  interactionId : Option String := none
  referer : Option String := none
  deriving Repr, DecidableEq

/-- JavaScript truthiness of an optional string: `undefined` and the empty
string are falsy (controllers test `req.session.email`, `req.session.referer`
directly). -/
def strTruthy : Option String → Bool
  | none => false
  | some s => !s.isEmpty

/-- lodash `isEmpty` restricted to optional strings, as used on
`req.session.email` in postSignInWithMagicLinkController: `undefined` and
`""` are empty. -/
def lodashIsEmpty (o : Option String) : Bool :=
  !(strTruthy o)

/-- A JavaScript template literal coerces `undefined` to the string
"undefined"; controllers interpolate raw body fields into redirect URLs. -/
def jsShow : Option String → String
  | none => "undefined"
  | some s => s

/-- The zod check `z.string().min(1)`: the field must be present and
non-empty. -/
def zodNonempty : Option String → Bool
  | none => false
  | some s => !s.isEmpty

/-- The JavaScript regex class `\s`, by code point, as matched by
`val.replace(/\s+/g, '')` in postVerifyEmailController. -/
def isJsWhitespace (c : Char) : Bool :=
  let n := c.toNat
  n == 0x20 || n == 0x09 || n == 0x0a || n == 0x0d || n == 0x0b || n == 0x0c ||
  n == 0xa0 || n == 0x1680 || (decide (0x2000 ≤ n) && decide (n ≤ 0x200a)) ||
  n == 0x2028 || n == 0x2029 || n == 0x202f || n == 0x205f || n == 0x3000 ||
  n == 0xfeff

/-- `val.replace(/\s+/g, '')`: remove every whitespace character. -/
def stripWhitespace (s : String) : String :=
  String.mk (s.data.filter (fun c => !(isJsWhitespace c)))

/-- Domain errors thrown by the managers (errors.ts is imported by the
controllers; the error classes carry no data except the optional
did-you-mean suggestion on InvalidEmailError). -/
inductive UserError
  | invalidEmail (didYouMean : Option String)
  | invalidCredentials
  | emailUnavailable
  | weakPassword
  | invalidToken
  | invalidMagicLink
  | unexpected
  deriving Repr, DecidableEq

/-- Internal token errors (§7: surfaced as InvalidTokenError or
InvalidMagicLinkError at the boundary). -/
inductive TokenError
  | notFound
  | expired
  | alreadyUsed
  deriving Repr, DecidableEq

/-- The observable result of a controller: call the next handler (success),
redirect to a path, render a view (optionally carrying a token value), or
fall through to the generic error handler. -/
inductive Outcome
  | next
  | redirect (path : String)
  | render (view : String) (tokenValue : Option String)
  | serverError
  deriving Repr, DecidableEq

/-- What a controller produces: the updated session, the updated database,
and the observable outcome. -/
structure CtrlResult where
  session : Session
  db : Db
  outcome : Outcome
  deriving Repr, DecidableEq

/-! ## Collaborators modelled from the spec -/

/-- Split a character list at every occurrence of the separator. -/
def splitOnChar (c : Char) : List Char → List (List Char)
  | [] => [[]]
  | x :: xs =>
    match splitOnChar c xs with
    | [] => [[]]
    | y :: ys => if x == c then [] :: y :: ys else (x :: y) :: ys

/-- The UTF-8 byte size of a character. -/
def charUtf8Size (c : Char) : Nat :=
  let n := c.toNat
  if n < 0x80 then 1 else if n < 0x800 then 2 else if n < 0x10000 then 3 else 4

/-- The UTF-8 byte length of a character list. -/
def utf8Len (l : List Char) : Nat :=
  (l.map charUtf8Size).sum

/-- Modelled from the spec: `isEmailValid` of services/security is not in the
sources (only its tests are); §6 EmailValidator: requires an `@`, local part
at most 64 bytes, domain at most 255 bytes, accepts Unicode; empty parts do
not count (so the empty string and strings without `@` are invalid).  The
domain is the last non-empty part, the local part everything before it. -/
def isEmailValid : Option String → Bool
  | none => false
  | some s =>
    let parts := (splitOnChar '@' s.data).filter (fun p => !p.isEmpty)
    if parts.length < 2 then false
    else
      let domain := parts.getLastD []
      let localPart := List.intercalate ['@'] parts.dropLast
      decide (utf8Len localPart ≤ 64) && decide (utf8Len domain ≤ 255)

/-- Modelled from the spec: the reference password-strength minimum
(§4.2 CredentialGuard: 10 characters, measured in characters). -/
def minPasswordLength : Nat := 10

/-- Modelled from the spec: `checkStrength` rejects passwords shorter than
the minimum length (§4.2). -/
def isPasswordSecure (password : String) : Bool :=
  decide (minPasswordLength ≤ password.length)

/-- Modelled from the spec: the salted hash of §4.2, abstracted as an
injective encoding (the hashing algorithm itself is a collaborator concern;
no claim depends on it). -/
def hashPassword (p : String) : String :=
  "hashed:" ++ p

/-- Modelled from the spec: `verify(plainPassword, storedHash)` (§4.2). -/
def verifyPassword (plain stored : String) : Bool :=
  hashPassword plain == stored

/-- Token lookup in the store, by kind and exact opaque value. -/
def findToken (tokens : List SecurityToken) (kind : TokenKind) (value : String) :
    Option SecurityToken :=
  tokens.find? (fun t => t.kind == kind && t.value == value)

/-- Modelled from the spec: `TokenIssuer.validate` (§4.1): pure lookup and
state check; a token is valid iff unconsumed and not yet expired; expiry is
reported regardless of consumption state (§8). -/
def validateToken (db : Db) (now : Nat) (kind : TokenKind) (value : String) :
    Except TokenError SecurityToken :=
  match findToken db.tokens kind value with
  | none => .error .notFound
  | some t =>
    if decide (t.expiresAt ≤ now) then .error .expired
    else if t.consumedAt.isSome then .error .alreadyUsed
    else .ok t

/-- Modelled from the spec: `TokenIssuer.consume` (§4.1): validate, then mark
`consumedAt = now`; on failure nothing is written (§7: no partial token
consumption). -/
def consumeToken (db : Db) (now : Nat) (kind : TokenKind) (value : String) :
    Except TokenError (SecurityToken × Db) :=
  match validateToken db now kind value with
  | .error e => .error e
  | .ok t =>
    .ok (t, { db with tokens := db.tokens.map (fun u =>
        if u.kind == kind && u.value == value then { u with consumedAt := some now }
        else u) })

/-! ## Managers modelled from the spec (managers/user.ts is not in the
sources; only the controllers that call it are). -/

/-- Modelled from the spec: `login` (§4.4 PasswordLogin): verify the password
of the user bound to the pending email via CredentialGuard; any failure
(no pending email, unknown user, wrong password) is InvalidCredentials. -/
def login (db : Db) (email : Option String) (password : String) :
    Except UserError User :=
  match email with
  | none => .error .invalidCredentials
  | some e =>
    match db.users.find? (fun u => u.email == e) with
    | none => .error .invalidCredentials
    | some u =>
      if verifyPassword password u.passwordHash then .ok u
      else .error .invalidCredentials

/-- Modelled from the spec: `signup` (§4.4 Signup): EmailUnavailable if the
email is taken, WeakPassword if too short, otherwise hash and create the
user record.  A missing pending email violates the precondition and
surfaces as an unexpected error. -/
def signup (db : Db) (email : Option String) (password : String) :
    Except UserError (User × Db) :=
  match email with
  | none => .error .unexpected
  | some e =>
    if db.users.any (fun u => u.email == e) then .error .emailUnavailable
    else if !(isPasswordSecure password) then .error .weakPassword
    else
      let u : User := { id := db.users.length, email := e,
                        passwordHash := hashPassword password }
      .ok (u, { db with users := db.users ++ [u] })

/-- Modelled from the spec: `loginWithMagicLink` (§4.4 ConsumeMagicLink):
consume the MagicLink token and resolve its subject to a user; every failure
is InvalidMagicLink.  On failure nothing is committed (§7). -/
def loginWithMagicLink (db : Db) (now : Nat) (token : String) :
    Except UserError (User × Db) :=
  match consumeToken db now .magicLink token with
  | .error _ => .error .invalidMagicLink
  | .ok (t, db') =>
    match db'.users.find? (fun u => u.email == t.subjectEmail) with
    | none => .error .invalidMagicLink
    | some u => .ok (u, db')

/-- Modelled from the spec: `verifyEmail` (§4.4 ConsumeEmailVerification):
consume the EmailVerification token for the session user's email and set
`emailVerifiedAt = now`; every failure surfaces as InvalidTokenError. -/
def verifyEmail (db : Db) (now : Nat) (email : String) (token : String) :
    Except UserError (User × Db) :=
  match consumeToken db now .emailVerification token with
  | .error _ => .error .invalidToken
  | .ok (t, db') =>
    if t.subjectEmail == email then
      match db'.users.find? (fun u => u.email == email) with
      | none => .error .invalidToken
      | some u =>
        let u' := { u with emailVerifiedAt := some now }
        .ok (u', { db' with users := db'.users.map (fun v =>
            if v.email == email then u' else v) })
    else .error .invalidToken

/-- Modelled from the spec: `changePassword` (§4.4 ConsumePasswordReset):
the password-strength check runs first (tie-break in the spec: only consume
the token once the new password is accepted); then the PasswordReset token
is consumed and the stored hash updated. -/
def changePassword (db : Db) (now : Nat) (token : String) (newPassword : String) :
    Except UserError Db :=
  if !(isPasswordSecure newPassword) then .error .weakPassword
  else
    match consumeToken db now .passwordReset token with
    | .error _ => .error .invalidToken
    | .ok (t, db') =>
      match db'.users.find? (fun u => u.email == t.subjectEmail) with
      | none => .error .invalidToken
      | some u =>
        .ok { db' with users := db'.users.map (fun v =>
            if v.id == u.id then { v with passwordHash := hashPassword newPassword }
            else v) }

/-- Modelled from the spec: `sendSendMagicLinkEmail` (§4.4 RequestMagicLink):
requires a pending email (else InvalidEmail), issues a MagicLink token for it
(`fresh` stands for the random opaque value TokenIssuer generates), and
succeeds regardless of whether a user record exists (enumeration-safe);
dispatch of the actual email is delegated. -/
def sendSendMagicLinkEmail (db : Db) (now ttl : Nat) (fresh : String)
    (email : Option String) : Except UserError Db :=
  match email with
  | none => .error (.invalidEmail none)
  | some e =>
    if e.isEmpty then .error (.invalidEmail none)
    else
      .ok { db with tokens := db.tokens ++
        [{ kind := .magicLink, value := fresh, subjectEmail := e,
           issuedAt := now, expiresAt := now + ttl }] }

/-- Modelled from the spec: `sendResetPasswordEmail` (§4.4
RequestPasswordReset): issues a PasswordReset token for the given email and
always succeeds, whether or not the email is registered (enumeration-safe);
dispatch of the actual email is delegated. -/
def sendResetPasswordEmail (db : Db) (now ttl : Nat) (fresh : String)
    (email : String) : Except UserError Db :=
  .ok { db with tokens := db.tokens ++
    [{ kind := .passwordReset, value := fresh, subjectEmail := email,
       issuedAt := now, expiresAt := now + ttl }] }

/-- Drop leading and trailing whitespace from a character list. -/
def trimChars (l : List Char) : List Char :=
  (((l.dropWhile Char.isWhitespace).reverse.dropWhile Char.isWhitespace).reverse)

/-- Modelled from the spec: email normalization performed by `startLogin`
before binding the pending email (trim surrounding whitespace, lower-case). -/
def normalizeEmail (s : String) : String :=
  String.mk ((trimChars s.data).map Char.toLower)

/-- Modelled from the spec: `startLogin` (§4.4 StartLogin): on a
format-valid email it consults the optional did-you-mean collaborator (§9) —
`suggestReject login = some d` means the collaborator rejects the address
with suggestion `d` — then returns the normalized email together with
whether a user record exists; format failure raises InvalidEmail. -/
def startLogin (db : Db) (suggestReject : String → Option (Option String))
    (login : String) : Except UserError (String × Bool) :=
  if isEmailValid (some login) then
    match suggestReject login with
    | some d => .error (.invalidEmail d)
    | none =>
      let e := normalizeEmail login
      .ok (e, db.users.any (fun u => u.email == e))
  else .error (.invalidEmail none)

/-- Modelled from the spec: `emailSchema()` of custom-zod-schemas is not in
the sources; it validates the payload field against the EmailValidator (§6),
raising a ZodError on failure. -/
def parseEmailField (field : Option String) : Except Unit String :=
  match field with
  | some s => if isEmailValid (some s) then .ok s else .error ()
  | none => .error ()

/-! ## Controllers (controllers/user.ts, translated statement by statement) -/

/-- Request body of postStartSignInController. -/
structure StartSignInBody where
  login : Option String := none
  deriving Repr, DecidableEq

/-- The catch-branch of postStartSignInController for InvalidEmailError: the
redirect carries the raw login as login_hint and, when the error has a
did-you-mean suggestion, a did_you_mean query parameter. -/
def startSignInInvalidEmailRedirect (rawLogin : Option String)
    (didYouMean : Option String) : Outcome :=
  .redirect ("/users/start-sign-in?notification=invalid_email&login_hint="
    ++ jsShow rawLogin
    ++ (match didYouMean with
        | some s => "&did_you_mean=" ++ s
        | none => ""))

/-- postStartSignInController: parse the login via emailSchema, call
startLogin, bind the returned email to the session and route to sign-in or
sign-up by user existence; InvalidEmailError and ZodError redirect to
start-sign-in with notification=invalid_email. -/
def postStartSignInController (db : Db)
    (suggestReject : String → Option (Option String)) (sess : Session)
    (body : StartSignInBody) : CtrlResult :=
  match parseEmailField body.login with
  | .error _ =>
    { session := sess, db := db,
      outcome := .redirect
        ("/users/start-sign-in?notification=invalid_email&login_hint="
          ++ jsShow body.login) }
  | .ok rawLogin =>
    match startLogin db suggestReject rawLogin with
    | .ok (email, userExists) =>
      { session := { sess with email := some email }, db := db,
        outcome := .redirect
          (if userExists then "/users/sign-in" else "/users/sign-up") }
    | .error (.invalidEmail d) =>
      { session := sess, db := db,
        outcome := startSignInInvalidEmailRedirect body.login d }
    | .error _ =>
      { session := sess, db := db, outcome := .serverError }

/-- Request body carrying a single password field. -/
structure PasswordBody where
  password : Option String := none
  deriving Repr, DecidableEq

/-- postSignInMiddleware: zod requires a non-empty password; on success the
session user is set and the pending email cleared, then next(); an
InvalidCredentialsError or ZodError redirects to sign-in with
notification=invalid_credentials. -/
def postSignInMiddleware (db : Db) (sess : Session) (body : PasswordBody) :
    CtrlResult :=
  match body.password with
  | none =>
    { session := sess, db := db,
      outcome := .redirect "/users/sign-in?notification=invalid_credentials" }
  | some p =>
    if p.isEmpty then
      { session := sess, db := db,
        outcome := .redirect "/users/sign-in?notification=invalid_credentials" }
    else
      match login db sess.email p with
      | .ok u =>
        { session := { sess with user := some u, email := none }, db := db,
          outcome := .next }
      | .error .invalidCredentials =>
        { session := sess, db := db,
          outcome := .redirect "/users/sign-in?notification=invalid_credentials" }
      | .error _ =>
        { session := sess, db := db, outcome := .serverError }

/-- postSignUpController: zod requires a non-empty password; on success the
session user is set and the pending email cleared, then next();
EmailUnavailableError redirects to start-sign-in, WeakPasswordError to
sign-up with notification=weak_password, ZodError to sign-up with
notification=invalid_credentials. -/
def postSignUpController (db : Db) (sess : Session) (body : PasswordBody) :
    CtrlResult :=
  match body.password with
  | none =>
    { session := sess, db := db,
      outcome := .redirect "/users/sign-up?notification=invalid_credentials" }
  | some p =>
    if p.isEmpty then
      { session := sess, db := db,
        outcome := .redirect "/users/sign-up?notification=invalid_credentials" }
    else
      match signup db sess.email p with
      | .ok (u, db') =>
        { session := { sess with user := some u, email := none }, db := db',
          outcome := .next }
      | .error .emailUnavailable =>
        { session := sess, db := db,
          outcome := .redirect "/users/start-sign-in?notification=email_unavailable" }
      | .error .weakPassword =>
        { session := sess, db := db,
          outcome := .redirect "/users/sign-up?notification=weak_password" }
      | .error _ =>
        { session := sess, db := db, outcome := .serverError }

/-- Request body of postVerifyEmailController. -/
structure VerifyEmailBody where
  verify_email_token : Option String := none
  deriving Repr, DecidableEq

/-- postVerifyEmailController: zod requires a non-empty token and then strips
every whitespace character (the transform `val.replace(/\s+/g, '')`); the
manager verifies the code for the session user's email; InvalidTokenError
and ZodError redirect to verify-email with
notification=invalid_verify_email_code.  Reading the email of an absent
session user throws and reaches the generic error handler. -/
def postVerifyEmailController (db : Db) (now : Nat) (sess : Session)
    (body : VerifyEmailBody) : CtrlResult :=
  match body.verify_email_token with
  | none =>
    { session := sess, db := db,
      outcome := .redirect "/users/verify-email?notification=invalid_verify_email_code" }
  | some raw =>
    if raw.isEmpty then
      { session := sess, db := db,
        outcome := .redirect "/users/verify-email?notification=invalid_verify_email_code" }
    else
      match sess.user with
      | none => { session := sess, db := db, outcome := .serverError }
      | some u =>
        match verifyEmail db now u.email (stripWhitespace raw) with
        | .ok (u', db') =>
          { session := { sess with user := some u' }, db := db',
            outcome := .next }
        | .error .invalidToken =>
          { session := sess, db := db,
            outcome := .redirect "/users/verify-email?notification=invalid_verify_email_code" }
        | .error _ =>
          { session := sess, db := db, outcome := .serverError }

/-- postSendMagicLinkController: sends the magic link for the session's
pending email; success redirects to magic-link-sent, InvalidEmailError to
start-sign-in with notification=invalid_email. -/
def postSendMagicLinkController (db : Db) (now ttl : Nat) (fresh : String)
    (sess : Session) : CtrlResult :=
  match sendSendMagicLinkEmail db now ttl fresh sess.email with
  | .ok db' =>
    { session := sess, db := db', outcome := .redirect "/users/magic-link-sent" }
  | .error (.invalidEmail _) =>
    { session := sess, db := db,
      outcome := .redirect "/users/start-sign-in?notification=invalid_email" }
  | .error _ =>
    { session := sess, db := db, outcome := .serverError }

/-- Query string of getSignInWithMagicLinkController. -/
structure MagicLinkQuery where
  magic_link_token : Option String := none
  deriving Repr, DecidableEq

/-- getSignInWithMagicLinkController: zod requires a non-empty token (a
ZodError redirects to start-sign-in with notification=invalid_magic_link);
if the session has no (truthy) pending email the manual confirmation view
sign-in-with-magic-link is rendered — the robot-protection mechanism — and
the token is not consumed; otherwise the autosubmit-form view is rendered.
The controller never touches the database. -/
def getSignInWithMagicLinkController (db : Db) (sess : Session)
    (query : MagicLinkQuery) : CtrlResult :=
  match query.magic_link_token with
  | none =>
    { session := sess, db := db,
      outcome := .redirect "/users/start-sign-in?notification=invalid_magic_link" }
  | some tok =>
    if tok.isEmpty then
      { session := sess, db := db,
        outcome := .redirect "/users/start-sign-in?notification=invalid_magic_link" }
    else if !(strTruthy sess.email) then
      { session := sess, db := db,
        outcome := .render "user/sign-in-with-magic-link" (some tok) }
    else
      { session := sess, db := db,
        outcome := .render "autosubmit-form" (some tok) }

/-- Request body of postSignInWithMagicLinkController. -/
structure MagicLinkBody where
  magic_link_token : Option String := none
  deriving Repr, DecidableEq

/-- postSignInWithMagicLinkController: zod requires a non-empty token; on
success the session user is set and the pending email cleared, then next();
on InvalidMagicLinkError or ZodError the redirect depends on the session:
no pending email → start-sign-in with notification=invalid_magic_link,
pending email present → sign-in with
notification=invalid_magic_link_with_reinit (the pending email is kept). -/
def postSignInWithMagicLinkController (db : Db) (now : Nat) (sess : Session)
    (body : MagicLinkBody) : CtrlResult :=
  let fail : CtrlResult :=
    if lodashIsEmpty sess.email then
      { session := sess, db := db,
        outcome := .redirect "/users/start-sign-in?notification=invalid_magic_link" }
    else
      { session := sess, db := db,
        outcome := .redirect "/users/sign-in?notification=invalid_magic_link_with_reinit" }
  match body.magic_link_token with
  | none => fail
  | some tok =>
    if tok.isEmpty then fail
    else
      match loginWithMagicLink db now tok with
      | .ok (u, db') =>
        { session := { sess with user := some u, email := none }, db := db',
          outcome := .next }
      | .error .invalidMagicLink => fail
      | .error _ =>
        { session := sess, db := db, outcome := .serverError }

/-- Request body of postResetPasswordController. -/
structure ResetPasswordBody where
  login : Option String := none
  deriving Repr, DecidableEq

/-- postResetPasswordController: the login is validated by emailSchema (a
ZodError redirects to reset-password with notification=invalid_email); the
reset email is sent and the controller redirects to start-sign-in with
notification=reset_password_email_sent. -/
def postResetPasswordController (db : Db) (now ttl : Nat) (fresh : String)
    (sess : Session) (body : ResetPasswordBody) : CtrlResult :=
  match parseEmailField body.login with
  | .error _ =>
    { session := sess, db := db,
      outcome := .redirect "/users/reset-password?notification=invalid_email" }
  | .ok email =>
    match sendResetPasswordEmail db now ttl fresh email with
    | .ok db' =>
      { session := sess, db := db',
        outcome := .redirect "/users/start-sign-in?notification=reset_password_email_sent" }
    | .error _ =>
      { session := sess, db := db, outcome := .serverError }

/-- Request body of postChangePasswordController. -/
structure ChangePasswordBody where
  reset_password_token : Option String := none
  password : Option String := none
  deriving Repr, DecidableEq

/-- postChangePasswordController: zod requires both fields non-empty; on a
ZodError the token field is inspected first (hasErrorFromField), so a
missing/empty token redirects to reset-password with
notification=invalid_token and a missing/empty password to change-password
with notification=weak_password, carrying the raw token.  InvalidTokenError
and WeakPasswordError from the manager redirect the same way; success
redirects to start-sign-in with notification=password_change_success. -/
def postChangePasswordController (db : Db) (now : Nat) (sess : Session)
    (body : ChangePasswordBody) : CtrlResult :=
  if !(zodNonempty body.reset_password_token) then
    { session := sess, db := db,
      outcome := .redirect "/users/reset-password?notification=invalid_token" }
  else if !(zodNonempty body.password) then
    { session := sess, db := db,
      outcome := .redirect ("/users/change-password?reset_password_token="
        ++ jsShow body.reset_password_token ++ "&notification=weak_password") }
  else
    match changePassword db now (jsShow body.reset_password_token)
        (jsShow body.password) with
    | .ok db' =>
      { session := sess, db := db',
        outcome := .redirect "/users/start-sign-in?notification=password_change_success" }
    | .error .invalidToken =>
      { session := sess, db := db,
        outcome := .redirect "/users/reset-password?notification=invalid_token" }
    | .error .weakPassword =>
      { session := sess, db := db,
        outcome := .redirect ("/users/change-password?reset_password_token="
          ++ jsShow body.reset_password_token ++ "&notification=weak_password") }
    | .error _ =>
      { session := sess, db := db, outcome := .serverError }

/-- issueSessionOrRedirectController: a truthy interactionId wins; otherwise
a truthy referer accepted by isUrlTrusted (a collaborator, passed as the
predicate `trusted`) is copied, removed from the session and redirected to;
otherwise the redirect goes to the root.  The controller touches no
database state. -/
def issueSessionOrRedirectController (trusted : String → Bool)
    (sess : Session) : Session × Outcome :=
  if strTruthy sess.interactionId then
    (sess, .redirect ("/interaction/" ++ jsShow sess.interactionId ++ "/login"))
  else if strTruthy sess.referer && trusted (jsShow sess.referer) then
    ({ sess with referer := none }, .redirect (jsShow sess.referer))
  else
    (sess, .redirect "/")

/-! ## Concrete fixtures used by witnesses -/

/-- A sample registered user. -/
def jean : User :=
  { id := 7, email := "jean@exemple.fr", passwordHash := hashPassword "oldpassword" }

/-- A live password-reset token for the sample user. -/
def resetTok : SecurityToken :=
  { kind := .passwordReset, value := "rst123", subjectEmail := "jean@exemple.fr",
    issuedAt := 0, expiresAt := 100 }

/-- A live magic-link token for the sample user. -/
def magicTok : SecurityToken :=
  { kind := .magicLink, value := "tok1234", subjectEmail := "jean@exemple.fr",
    issuedAt := 0, expiresAt := 100 }

/-- A live email-verification token for the sample user. -/
def verifTok : SecurityToken :=
  { kind := .emailVerification, value := "code12", subjectEmail := "jean@exemple.fr",
    issuedAt := 0, expiresAt := 100 }

/-- A database holding the sample user and one live token of each kind. -/
def sampleDb : Db := { users := [jean], tokens := [resetTok, magicTok, verifTok] }

/-- The empty database. -/
def emptyDb : Db := { users := [], tokens := [] }

/-! ## Theorems -/

theorem stripWhitespace_idem (s : String) :
    stripWhitespace (stripWhitespace s) = stripWhitespace s := by
  unfold stripWhitespace
  simp [List.filter_filter]

theorem isEmpty_false_of_ne (s : String) (h : s ≠ "") : s.isEmpty = false := by
  cases he : s.isEmpty
  · rfl
  · exact absurd ((String.isEmpty_iff s).mp he) h

theorem isEmailValid_ne_empty (e : String) (h : isEmailValid (some e) = true) :
    e ≠ "" := by
  intro hrfl
  subst hrfl
  exact absurd h (by decide)

/-- Claim C9: an empty password submitted to PasswordLogin or Signup fails
the zod payload-shape check (min length 1) before the flow logic runs; the
outcome is invalid_credentials in both cases, not weak_password, even though
the empty password is below the strength minimum; the session is unchanged. -/
theorem empty_password_is_invalid_credentials (db : Db) (s1 s2 : Session) :
    isPasswordSecure "" = false ∧
    (postSignInMiddleware db s1 { password := some "" }).outcome
      = .redirect "/users/sign-in?notification=invalid_credentials" ∧
    (postSignInMiddleware db s1 { password := some "" }).session = s1 ∧
    (postSignInMiddleware db s1 { password := some "" }).db = db ∧
    (postSignUpController db s2 { password := some "" }).outcome
      = .redirect "/users/sign-up?notification=invalid_credentials" ∧
    (postSignUpController db s2 { password := some "" }).session = s2 ∧
    (postSignUpController db s2 { password := some "" }).db = db :=
  ⟨rfl, rfl, rfl, rfl, rfl, rfl, rfl⟩

/-- Claim C2: a magic-link click (getSignInWithMagicLinkController) with a
structurally valid token never auto-authenticates when the session has no
pending email: it renders the manual confirmation view, consumes nothing
(database and session unchanged); when the pending email is set the
auto-submission view is rendered instead. -/
theorem magic_link_click_requires_confirmation_without_pending_email
    (db : Db) (sess : Session) (tok : String) (htok : tok ≠ "") :
    (getSignInWithMagicLinkController db sess { magic_link_token := some tok }).db = db ∧
    (getSignInWithMagicLinkController db sess { magic_link_token := some tok }).session = sess ∧
    (strTruthy sess.email = false →
      (getSignInWithMagicLinkController db sess { magic_link_token := some tok }).outcome
        = .render "user/sign-in-with-magic-link" (some tok)) ∧
    (strTruthy sess.email = true →
      (getSignInWithMagicLinkController db sess { magic_link_token := some tok }).outcome
        = .render "autosubmit-form" (some tok)) := by
  have hne : tok.isEmpty = false := isEmpty_false_of_ne tok htok
  cases hse : strTruthy sess.email <;>
    simp [getSignInWithMagicLinkController, hne, hse]

theorem magic_link_click_requires_confirmation_without_pending_email_witness :
    (getSignInWithMagicLinkController sampleDb { email := none }
        { magic_link_token := some "tok1234" }).db = sampleDb ∧
    (getSignInWithMagicLinkController sampleDb { email := none }
        { magic_link_token := some "tok1234" }).session = { email := none } ∧
    (strTruthy ({ email := none } : Session).email = false →
      (getSignInWithMagicLinkController sampleDb { email := none }
          { magic_link_token := some "tok1234" }).outcome
        = .render "user/sign-in-with-magic-link" (some "tok1234")) ∧
    (strTruthy ({ email := none } : Session).email = true →
      (getSignInWithMagicLinkController sampleDb { email := none }
          { magic_link_token := some "tok1234" }).outcome
        = .render "autosubmit-form" (some "tok1234")) :=
  magic_link_click_requires_confirmation_without_pending_email sampleDb
    { email := none } "tok1234" (by decide)

/-- Claim C10: after authentication the redirect target is chosen in a fixed
order: a pending interactionId wins; otherwise a stored referer is used only
when the trust predicate accepts it, and it is removed from the session
before redirecting; otherwise the redirect goes to the root, and an
untrusted referer is kept in the session. -/
theorem issue_session_redirect_priority (trusted : String → Bool) (sess : Session) :
    (∀ i, sess.interactionId = some i → i ≠ "" →
      issueSessionOrRedirectController trusted sess
        = (sess, .redirect ("/interaction/" ++ i ++ "/login"))) ∧
    (∀ r, sess.interactionId = none → sess.referer = some r → r ≠ "" →
      trusted r = true →
      issueSessionOrRedirectController trusted sess
        = ({ sess with referer := none }, .redirect r)) ∧
    (sess.interactionId = none → sess.referer = none →
      issueSessionOrRedirectController trusted sess = (sess, .redirect "/")) ∧
    (∀ r, sess.interactionId = none → sess.referer = some r → trusted r = false →
      issueSessionOrRedirectController trusted sess = (sess, .redirect "/")) := by
  refine ⟨?_, ?_, ?_, ?_⟩
  · intro i hi hne
    simp [issueSessionOrRedirectController, strTruthy, hi,
      isEmpty_false_of_ne i hne, jsShow]
  · intro r hi hr hne htr
    simp [issueSessionOrRedirectController, strTruthy, hi, hr,
      isEmpty_false_of_ne r hne, jsShow, htr]
  · intro hi hr
    simp [issueSessionOrRedirectController, strTruthy, hi, hr]
  · intro r hi hr htr
    cases hre : r.isEmpty <;>
      simp [issueSessionOrRedirectController, strTruthy, hi, hr, hre, jsShow, htr]

theorem issue_session_redirect_priority_witness :
    issueSessionOrRedirectController (fun s => s == "https://trusted.example")
        { interactionId := none, referer := some "https://evil.example" }
      = ({ interactionId := none, referer := some "https://evil.example" },
          .redirect "/") :=
  (issue_session_redirect_priority (fun s => s == "https://trusted.example")
      { interactionId := none, referer := some "https://evil.example" }).2.2.2
    "https://evil.example" rfl rfl (by decide)

theorem loginWithMagicLink_error_kind (db : Db) (now : Nat) (tok : String)
    (e : UserError) (h : loginWithMagicLink db now tok = .error e) :
    e = .invalidMagicLink := by
  unfold loginWithMagicLink at h
  cases hc : consumeToken db now .magicLink tok with
  | error te => rw [hc] at h; simp at h; exact h.symm
  | ok p =>
    obtain ⟨t, db'⟩ := p
    rw [hc] at h
    simp only [] at h
    cases hf : db'.users.find? (fun u => u.email == t.subjectEmail) <;>
      rw [hf] at h <;> simp at h
    exact h.symm

theorem postSignInMiddleware_next_email (db : Db) (s : Session)
    (pb : PasswordBody)
    (h : (postSignInMiddleware db s pb).outcome = .next) :
    (postSignInMiddleware db s pb).session.email = none := by
  cases hp : pb.password with
  | none => simp [postSignInMiddleware, hp] at h
  | some p =>
    cases he : p.isEmpty with
    | true => simp [postSignInMiddleware, hp, he] at h
    | false =>
      cases hl : login db s.email p with
      | ok u => simp [postSignInMiddleware, hp, he, hl]
      | error e =>
        cases e <;> simp [postSignInMiddleware, hp, he, hl] at h

theorem postSignUpController_next_email (db : Db) (s : Session)
    (pb : PasswordBody)
    (h : (postSignUpController db s pb).outcome = .next) :
    (postSignUpController db s pb).session.email = none := by
  cases hp : pb.password with
  | none => simp [postSignUpController, hp] at h
  | some p =>
    cases he : p.isEmpty with
    | true => simp [postSignUpController, hp, he] at h
    | false =>
      cases hl : signup db s.email p with
      | ok q => obtain ⟨u, db'⟩ := q; simp [postSignUpController, hp, he, hl]
      | error e =>
        cases e <;> simp [postSignUpController, hp, he, hl] at h

theorem postSignInWithMagicLinkController_next_email (db : Db) (now : Nat)
    (s : Session) (mb : MagicLinkBody)
    (h : (postSignInWithMagicLinkController db now s mb).outcome = .next) :
    (postSignInWithMagicLinkController db now s mb).session.email = none := by
  cases hp : mb.magic_link_token with
  | none =>
    cases hse : lodashIsEmpty s.email <;>
      simp [postSignInWithMagicLinkController, hp, hse] at h
  | some tok =>
    cases he : tok.isEmpty with
    | true =>
      cases hse : lodashIsEmpty s.email <;>
        simp [postSignInWithMagicLinkController, hp, he, hse] at h
    | false =>
      cases hl : loginWithMagicLink db now tok with
      | ok q =>
        obtain ⟨u, db'⟩ := q
        simp [postSignInWithMagicLinkController, hp, he, hl]
      | error e =>
        have := loginWithMagicLink_error_kind db now tok e hl
        subst this
        cases hse : lodashIsEmpty s.email <;>
          simp [postSignInWithMagicLinkController, hp, he, hl, hse] at h

/-- Claim C3: every transition that authenticates the session — password
login, signup, magic-link login — clears the pending email in the same
step: whenever one of the three controllers succeeds (outcome next), the
resulting session has no pending email. -/
theorem authenticated_transitions_clear_pending_email
    (db : Db) (now : Nat) (s1 s2 s3 : Session) (pb1 pb2 : PasswordBody)
    (mb : MagicLinkBody)
    (h1 : (postSignInMiddleware db s1 pb1).outcome = .next)
    (h2 : (postSignUpController db s2 pb2).outcome = .next)
    (h3 : (postSignInWithMagicLinkController db now s3 mb).outcome = .next) :
    (postSignInMiddleware db s1 pb1).session.email = none ∧
    (postSignUpController db s2 pb2).session.email = none ∧
    (postSignInWithMagicLinkController db now s3 mb).session.email = none :=
  ⟨postSignInMiddleware_next_email db s1 pb1 h1,
   postSignUpController_next_email db s2 pb2 h2,
   postSignInWithMagicLinkController_next_email db now s3 mb h3⟩

theorem authenticated_transitions_clear_pending_email_witness :
    (postSignInMiddleware sampleDb { email := some "jean@exemple.fr" }
        { password := some "oldpassword" }).session.email = none ∧
    (postSignUpController sampleDb { email := some "new@exemple.fr" }
        { password := some "longpassword1" }).session.email = none ∧
    (postSignInWithMagicLinkController sampleDb 1
        { email := some "jean@exemple.fr" }
        { magic_link_token := some "tok1234" }).session.email = none :=
  authenticated_transitions_clear_pending_email sampleDb 1
    { email := some "jean@exemple.fr" } { email := some "new@exemple.fr" }
    { email := some "jean@exemple.fr" }
    { password := some "oldpassword" } { password := some "longpassword1" }
    { magic_link_token := some "tok1234" }
    (by decide) (by decide) (by decide)

theorem postSignInMiddleware_fail_state (db : Db) (s : Session)
    (pb : PasswordBody)
    (h : (postSignInMiddleware db s pb).outcome ≠ .next) :
    (postSignInMiddleware db s pb).session = s ∧
    (postSignInMiddleware db s pb).db = db := by
  cases hp : pb.password with
  | none => simp [postSignInMiddleware, hp]
  | some p =>
    cases he : p.isEmpty with
    | true => simp [postSignInMiddleware, hp, he]
    | false =>
      cases hl : login db s.email p with
      | ok u =>
        exact absurd (by simp [postSignInMiddleware, hp, he, hl]) h
      | error e =>
        cases e <;> simp [postSignInMiddleware, hp, he, hl]

theorem postVerifyEmailController_fail_state (db : Db) (now : Nat)
    (s : Session) (vb : VerifyEmailBody)
    (h : (postVerifyEmailController db now s vb).outcome ≠ .next) :
    (postVerifyEmailController db now s vb).session = s ∧
    (postVerifyEmailController db now s vb).db = db := by
  cases ht : vb.verify_email_token with
  | none => simp [postVerifyEmailController, ht]
  | some raw =>
    cases he : raw.isEmpty with
    | true => simp [postVerifyEmailController, ht, he]
    | false =>
      cases hu : s.user with
      | none => simp [postVerifyEmailController, ht, he, hu]
      | some u =>
        cases hv : verifyEmail db now u.email (stripWhitespace raw) with
        | ok q =>
          obtain ⟨u', db'⟩ := q
          exact absurd (by simp [postVerifyEmailController, ht, he, hu, hv]) h
        | error e =>
          cases e <;> simp [postVerifyEmailController, ht, he, hu, hv]

/-- Claim C8: a failed transition leaves the session exactly as it was:
a PasswordLogin that does not succeed leaves the session (pending email and
authenticated user) and the database unchanged, and a ConsumeEmailVerification
that does not succeed leaves the session user and the database (hence
emailVerifiedAt) unchanged. -/
theorem failed_transitions_leave_state_unchanged
    (db : Db) (now : Nat) (s1 s2 : Session) (pb : PasswordBody)
    (vb : VerifyEmailBody)
    (h1 : (postSignInMiddleware db s1 pb).outcome ≠ .next)
    (h2 : (postVerifyEmailController db now s2 vb).outcome ≠ .next) :
    (postSignInMiddleware db s1 pb).session = s1 ∧
    (postSignInMiddleware db s1 pb).db = db ∧
    (postVerifyEmailController db now s2 vb).session = s2 ∧
    (postVerifyEmailController db now s2 vb).db = db :=
  ⟨(postSignInMiddleware_fail_state db s1 pb h1).1,
   (postSignInMiddleware_fail_state db s1 pb h1).2,
   (postVerifyEmailController_fail_state db now s2 vb h2).1,
   (postVerifyEmailController_fail_state db now s2 vb h2).2⟩

theorem failed_transitions_leave_state_unchanged_witness :
    (postSignInMiddleware sampleDb { email := some "jean@exemple.fr" }
        { password := some "wrongpassword" }).session
      = { email := some "jean@exemple.fr" } ∧
    (postSignInMiddleware sampleDb { email := some "jean@exemple.fr" }
        { password := some "wrongpassword" }).db = sampleDb ∧
    (postVerifyEmailController sampleDb 1
        { user := some jean } { verify_email_token := some "badcode" }).session
      = { user := some jean } ∧
    (postVerifyEmailController sampleDb 1
        { user := some jean } { verify_email_token := some "badcode" }).db
      = sampleDb :=
  failed_transitions_leave_state_unchanged sampleDb 1
    { email := some "jean@exemple.fr" } { user := some jean }
    { password := some "wrongpassword" } { verify_email_token := some "badcode" }
    (by decide) (by decide)

/-- Claim C5: when consuming a magic link fails (invalid, expired, or
malformed token — every non-success of postSignInWithMagicLinkController),
the outcome depends on the session: without a pending email the redirect is
start-sign-in with notification=invalid_magic_link; with a pending email it
is sign-in with notification=invalid_magic_link_with_reinit, and the session
(hence the pending email) is preserved in both cases. -/
theorem failed_magic_link_routes_by_pending_email
    (db : Db) (now : Nat) (sess : Session) (body : MagicLinkBody)
    (h : (postSignInWithMagicLinkController db now sess body).outcome ≠ .next) :
    (postSignInWithMagicLinkController db now sess body).session = sess ∧
    (postSignInWithMagicLinkController db now sess body).db = db ∧
    (lodashIsEmpty sess.email = true →
      (postSignInWithMagicLinkController db now sess body).outcome
        = .redirect "/users/start-sign-in?notification=invalid_magic_link") ∧
    (lodashIsEmpty sess.email = false →
      (postSignInWithMagicLinkController db now sess body).outcome
        = .redirect "/users/sign-in?notification=invalid_magic_link_with_reinit") := by
  cases hp : body.magic_link_token with
  | none =>
    cases hse : lodashIsEmpty sess.email <;>
      simp [postSignInWithMagicLinkController, hp, hse]
  | some tok =>
    cases he : tok.isEmpty with
    | true =>
      cases hse : lodashIsEmpty sess.email <;>
        simp [postSignInWithMagicLinkController, hp, he, hse]
    | false =>
      cases hl : loginWithMagicLink db now tok with
      | ok q =>
        obtain ⟨u, db'⟩ := q
        exact absurd (by simp [postSignInWithMagicLinkController, hp, he, hl]) h
      | error e =>
        have hek := loginWithMagicLink_error_kind db now tok e hl
        subst hek
        cases hse : lodashIsEmpty sess.email <;>
          simp [postSignInWithMagicLinkController, hp, he, hl, hse]

theorem failed_magic_link_routes_by_pending_email_witness :
    (postSignInWithMagicLinkController sampleDb 1
        { email := some "jean@exemple.fr" }
        { magic_link_token := some "nosuchtoken" }).session
      = { email := some "jean@exemple.fr" } ∧
    (postSignInWithMagicLinkController sampleDb 1
        { email := some "jean@exemple.fr" }
        { magic_link_token := some "nosuchtoken" }).db = sampleDb ∧
    (lodashIsEmpty ({ email := some "jean@exemple.fr" } : Session).email = true →
      (postSignInWithMagicLinkController sampleDb 1
          { email := some "jean@exemple.fr" }
          { magic_link_token := some "nosuchtoken" }).outcome
        = .redirect "/users/start-sign-in?notification=invalid_magic_link") ∧
    (lodashIsEmpty ({ email := some "jean@exemple.fr" } : Session).email = false →
      (postSignInWithMagicLinkController sampleDb 1
          { email := some "jean@exemple.fr" }
          { magic_link_token := some "nosuchtoken" }).outcome
        = .redirect "/users/sign-in?notification=invalid_magic_link_with_reinit") :=
  failed_magic_link_routes_by_pending_email sampleDb 1
    { email := some "jean@exemple.fr" } { magic_link_token := some "nosuchtoken" }
    (by decide)

/-- Claim C1: a ConsumePasswordReset with a structurally valid, unconsumed,
unexpired token and a too-short new password yields the weak_password
outcome and leaves the database — in particular the token — untouched; the
same token afterwards succeeds with a strong password (the strength check
runs before token consumption). -/
theorem weak_password_does_not_burn_reset_token
    (db : Db) (now now' : Nat) (s1 s2 : Session)
    (tok weakPw strongPw : String) (t : SecurityToken)
    (htok : tok ≠ "")
    (hvalid' : validateToken db now' .passwordReset tok = .ok t)
    (huser : ∃ v, db.users.find? (fun w => w.email == t.subjectEmail) = some v)
    (hweak : weakPw.length < minPasswordLength)
    (hstrong : minPasswordLength ≤ strongPw.length) :
    (postChangePasswordController db now s1
        { reset_password_token := some tok, password := some weakPw }).outcome
      = .redirect ("/users/change-password?reset_password_token=" ++ tok
          ++ "&notification=weak_password") ∧
    (postChangePasswordController db now s1
        { reset_password_token := some tok, password := some weakPw }).db = db ∧
    (postChangePasswordController db now s1
        { reset_password_token := some tok, password := some weakPw }).session = s1 ∧
    (postChangePasswordController db now' s2
        { reset_password_token := some tok, password := some strongPw }).outcome
      = .redirect "/users/start-sign-in?notification=password_change_success" := by
  have hne : tok.isEmpty = false := isEmpty_false_of_ne tok htok
  have hsne : strongPw.isEmpty = false := by
    apply isEmpty_false_of_ne
    intro hrfl
    rw [hrfl] at hstrong
    simp [minPasswordLength] at hstrong
  have hws : isPasswordSecure weakPw = false := by
    simp [isPasswordSecure, minPasswordLength] at hweak ⊢
    omega
  have hss : isPasswordSecure strongPw = true := by
    simp [isPasswordSecure]
    exact hstrong
  obtain ⟨v, hv⟩ := huser
  have hcp : ∃ db2, changePassword db now' tok strongPw = .ok db2 := by
    unfold changePassword consumeToken
    rw [hvalid', hss]
    simp [hv]
  obtain ⟨db2, hcp⟩ := hcp
  refine ⟨?_, ?_, ?_, ?_⟩
  · cases hwe : weakPw.isEmpty with
    | true => simp [postChangePasswordController, zodNonempty, hne, hwe, jsShow]
    | false =>
      simp [postChangePasswordController, zodNonempty, hne, hwe, jsShow,
        changePassword, hws]
  · cases hwe : weakPw.isEmpty with
    | true => simp [postChangePasswordController, zodNonempty, hne, hwe]
    | false =>
      simp [postChangePasswordController, zodNonempty, hne, hwe, jsShow,
        changePassword, hws]
  · cases hwe : weakPw.isEmpty with
    | true => simp [postChangePasswordController, zodNonempty, hne, hwe]
    | false =>
      simp [postChangePasswordController, zodNonempty, hne, hwe, jsShow,
        changePassword, hws]
  · simp [postChangePasswordController, zodNonempty, hne, hsne, jsShow, hcp]

theorem weak_password_does_not_burn_reset_token_witness :
    (postChangePasswordController sampleDb 1 { }
        { reset_password_token := some "rst123", password := some "short" }).outcome
      = .redirect
          "/users/change-password?reset_password_token=rst123&notification=weak_password" ∧
    (postChangePasswordController sampleDb 1 { }
        { reset_password_token := some "rst123", password := some "short" }).db
      = sampleDb ∧
    (postChangePasswordController sampleDb 1 { }
        { reset_password_token := some "rst123", password := some "short" }).session
      = { } ∧
    (postChangePasswordController sampleDb 2 { }
        { reset_password_token := some "rst123", password := some "longpassword1" }).outcome
      = .redirect "/users/start-sign-in?notification=password_change_success" :=
  weak_password_does_not_burn_reset_token sampleDb 1 2 { } { }
    "rst123" "short" "longpassword1" resetTok (by decide) rfl ⟨jean, rfl⟩
    (by decide) (by decide)

/-- Counterexample to claim C4: the magic-link consume side does not strip
whitespace: with a live magic-link token tok1234 for the sample user, the
whitespace-free submission authenticates while the same token pasted with an
embedded space (whose whitespace-free form is exactly the stored token) is
rejected. -/
theorem token_whitespace_counterexample :
    stripWhitespace "tok 1234" = "tok1234" ∧
    (postSignInWithMagicLinkController sampleDb 1
        { email := some "jean@exemple.fr" }
        { magic_link_token := some "tok1234" }).outcome = .next ∧
    (postSignInWithMagicLinkController sampleDb 1
        { email := some "jean@exemple.fr" }
        { magic_link_token := some "tok 1234" }).outcome ≠ .next := by
  refine ⟨rfl, rfl, ?_⟩
  decide

/-- Claim C4 (amended): only the email-verification code is
whitespace-stripped on the consume side: postVerifyEmailController treats a
code pasted with embedded whitespace exactly like the whitespace-free code
(magic-link and reset-password tokens are compared verbatim, as the
counterexample shows). -/
theorem verify_email_code_whitespace_stripped
    (db : Db) (now : Nat) (sess : Session) (raw : String)
    (h : stripWhitespace raw ≠ "") :
    postVerifyEmailController db now sess { verify_email_token := some raw }
      = postVerifyEmailController db now sess
          { verify_email_token := some (stripWhitespace raw) } := by
  have hraw : raw ≠ "" := by
    intro hrfl
    subst hrfl
    exact h rfl
  have h1 : raw.isEmpty = false := isEmpty_false_of_ne raw hraw
  have h2 : (stripWhitespace raw).isEmpty = false := isEmpty_false_of_ne _ h
  simp [postVerifyEmailController, h1, h2, stripWhitespace_idem]

theorem verify_email_code_whitespace_stripped_witness :
    postVerifyEmailController sampleDb 1 { user := some jean }
        { verify_email_token := some "co de 12" }
      = postVerifyEmailController sampleDb 1 { user := some jean }
        { verify_email_token := some "code12" } :=
  verify_email_code_whitespace_stripped sampleDb 1 { user := some jean }
    "co de 12" (by decide)

/-- Claim C6: for a format-valid email, RequestMagicLink and
RequestPasswordReset produce their fixed success outcomes for every database
state — in particular the observable result is the same whether or not a
user record with that email exists. -/
theorem enumeration_safe_request_outcomes
    (db1 db2 : Db) (now ttl : Nat) (fresh : String) (s1 s2 : Session)
    (e : String)
    (he : isEmailValid (some e) = true)
    (h1 : s1.email = some e) (h2 : s2.email = some e) :
    (postSendMagicLinkController db1 now ttl fresh s1).outcome
      = .redirect "/users/magic-link-sent" ∧
    (postSendMagicLinkController db2 now ttl fresh s2).outcome
      = .redirect "/users/magic-link-sent" ∧
    (postResetPasswordController db1 now ttl fresh s1 { login := some e }).outcome
      = .redirect "/users/start-sign-in?notification=reset_password_email_sent" ∧
    (postResetPasswordController db2 now ttl fresh s2 { login := some e }).outcome
      = .redirect "/users/start-sign-in?notification=reset_password_email_sent" := by
  have hne : e.isEmpty = false := isEmpty_false_of_ne e (isEmailValid_ne_empty e he)
  refine ⟨?_, ?_, ?_, ?_⟩ <;>
    simp [postSendMagicLinkController, sendSendMagicLinkEmail, h1, h2, hne,
      postResetPasswordController, parseEmailField, he, sendResetPasswordEmail]

theorem enumeration_safe_request_outcomes_witness :
    (postSendMagicLinkController sampleDb 1 50 "fresh1"
        { email := some "jean@exemple.fr" }).outcome
      = .redirect "/users/magic-link-sent" ∧
    (postSendMagicLinkController emptyDb 1 50 "fresh1"
        { email := some "jean@exemple.fr" }).outcome
      = .redirect "/users/magic-link-sent" ∧
    (postResetPasswordController sampleDb 1 50 "fresh1"
        { email := some "jean@exemple.fr" }
        { login := some "jean@exemple.fr" }).outcome
      = .redirect "/users/start-sign-in?notification=reset_password_email_sent" ∧
    (postResetPasswordController emptyDb 1 50 "fresh1"
        { email := some "jean@exemple.fr" }
        { login := some "jean@exemple.fr" }).outcome
      = .redirect "/users/start-sign-in?notification=reset_password_email_sent" :=
  enumeration_safe_request_outcomes sampleDb emptyDb 1 50 "fresh1"
    { email := some "jean@exemple.fr" } { email := some "jean@exemple.fr" }
    "jean@exemple.fr" (by decide) rfl rfl

/-- Claim C7: StartLogin with a format-valid email (accepted by the
did-you-mean collaborator) binds the normalized email as the pending email
and routes to sign-in when a user record exists, sign-up otherwise; a
format-invalid email yields the invalid_email outcome, and when the
collaborator rejects an address with a suggestion the invalid_email redirect
carries the did_you_mean parameter. -/
theorem start_login_routing
    (db : Db) (sr : String → Option (Option String)) (sess : Session)
    (body : StartSignInBody) :
    (∀ lg, body.login = some lg → isEmailValid (some lg) = true → sr lg = none →
      postStartSignInController db sr sess body
        = { session := { sess with email := some (normalizeEmail lg) }, db := db,
            outcome := .redirect
              (if db.users.any (fun u => u.email == normalizeEmail lg)
               then "/users/sign-in" else "/users/sign-up") }) ∧
    (isEmailValid body.login = false →
      postStartSignInController db sr sess body
        = { session := sess, db := db,
            outcome := .redirect
              ("/users/start-sign-in?notification=invalid_email&login_hint="
                ++ jsShow body.login) }) ∧
    (∀ lg d, body.login = some lg → isEmailValid (some lg) = true →
      sr lg = some d →
      postStartSignInController db sr sess body
        = { session := sess, db := db,
            outcome := startSignInInvalidEmailRedirect (some lg) d }) := by
  refine ⟨?_, ?_, ?_⟩
  · intro lg hlg hv hsr
    cases ha : db.users.any (fun u => u.email == normalizeEmail lg) <;>
      simp [postStartSignInController, parseEmailField, hlg, hv, startLogin,
        hsr, ha]
  · intro hv
    cases hlg : body.login with
    | none => simp [postStartSignInController, parseEmailField, hlg]
    | some lg =>
      rw [hlg] at hv
      simp [postStartSignInController, parseEmailField, hlg, hv]
  · intro lg d hlg hv hsr
    simp [postStartSignInController, parseEmailField, hlg, hv, startLogin, hsr]

theorem start_login_routing_witness :
    postStartSignInController emptyDb
        (fun l => if l == "jean@gmil.com" then some (some "jean@gmail.com")
                  else none)
        { } { login := some "jean@gmil.com" }
      = { session := { }, db := emptyDb,
          outcome := .redirect
            "/users/start-sign-in?notification=invalid_email&login_hint=jean@gmil.com&did_you_mean=jean@gmail.com" } :=
  (start_login_routing emptyDb
      (fun l => if l == "jean@gmil.com" then some (some "jean@gmail.com")
                else none)
      { } { login := some "jean@gmil.com" }).2.2
    "jean@gmil.com" (some "jean@gmail.com") rfl (by decide) (by decide)
